import Mathlib

/-!
Verification of the Mollie-for-Raycast extension core: the payment data model,
the date/amount formatting helpers, the today-revenue aggregation of the menu
bar command (src/transactionsMenuBar.tsx), and the status filter, action panel
and refund workflow of the payments list command (src/payments-list.tsx).

Conventions of the embedding: timestamps are epoch milliseconds (the value of
JavaScript's `Date.getTime`), the local timezone is a fixed offset `off` in
milliseconds ahead of UTC, decimal amount strings are parsed to rationals, and
the effects of the refund handler (requests issued, `revalidate` calls, final
toast) are collected in a record.
-/

namespace Mollie

/-- A monetary amount as delivered by the Mollie API (`interface Amount` in
both source files): a decimal string and an ISO-4217 currency code. -/
structure Amount where
  value : String
  currency : String
deriving DecidableEq

/-- A payment record (`interface Payment`).  `createdAt` holds the epoch
milliseconds that `new Date(p.createdAt).getTime()` yields; parsing of the ISO
string by the JavaScript `Date` constructor is outside the embedding.
`dashboardHref` is `_links.dashboard.href`, and `method` is `string | null`. -/
structure Payment where
  id : String
  amount : Amount
  description : String
  status : String
  method : Option String
  createdAt : Int
  dashboardHref : String
deriving DecidableEq

/-- JavaScript `a || b` for an optional string `a`: `undefined` and the empty
string are falsy and fall through to `b`; any other string is kept. -/
def jsOr (a : Option String) (b : String) : String :=
  match a with
  | some s => if s = "" then b else s
  | none => b

/-- JavaScript truthiness of an optional string: `undefined` and `""` are
falsy. -/
def jsTruthy (a : Option String) : Bool :=
  match a with
  | some s => !(s == "")
  | none => false

/-- Numeric value of a list of decimal digit characters, read left to right. -/
def digitsVal (l : List Char) : Nat :=
  l.foldl (fun acc c => 10 * acc + (c.toNat - 48)) 0

/-- Numeric value of a decimal amount string: models JavaScript `parseFloat`
on the canonical `value` strings of the API (optional sign, integer digits, an
optional fraction), which is the shape the spec's Amount invariant guarantees.
Input with no digits is mapped to `0`. -/
def parseAmount (s : String) : ℚ :=
  let signed : ℚ × List Char :=
    match s.data with
    | '-' :: cs => (-1, cs)
    | '+' :: cs => (1, cs)
    | cs => (1, cs)
  let intPart := signed.2.takeWhile Char.isDigit
  let rest := signed.2.dropWhile Char.isDigit
  let fracPart : List Char :=
    match rest with
    | '.' :: cs => cs.takeWhile Char.isDigit
    | _ => []
  if intPart.isEmpty && fracPart.isEmpty then 0
  else signed.1 * ((digitsVal intPart : ℚ) + (digitsVal fracPart : ℚ) / (10 : ℚ) ^ fracPart.length)

/-- The `formatCurrency` helper delegates to the external locale service
`Intl.NumberFormat("nl-NL", ...)`.  The locale rendering itself is outside the
embedding; it is modelled as an injective function of the numeric value and
the currency code, which is all the verified properties depend on. -/
def formatCurrency (value : ℚ) (currency : String) : String :=
  currency ++ " " ++ toString value.num ++ "/" ++ toString value.den

/-- Milliseconds in a day. -/
def msPerDay : Int := 86400000

/-- Epoch milliseconds of the local midnight at or before `t`, for a local
timezone `off` milliseconds ahead of UTC: the `date.setHours(0, 0, 0, 0)`
truncation both source files use. -/
def truncMidnight (off t : Int) : Int :=
  (t + off) - (t + off) % msPerDay - off

/-- Local hour of `t` (the hour field rendered by `toLocaleTimeString`). -/
def localHour (off t : Int) : Nat :=
  ((t + off) % msPerDay).toNat / 3600000

/-- Local minute of `t`. -/
def localMinute (off t : Int) : Nat :=
  (((t + off) % msPerDay).toNat / 60000) % 60

/-- Proleptic Gregorian date `(year, month, day)` of a day number counted from
1970-01-01: the standard civil-from-days algorithm implemented by the
JavaScript `Date` getters. -/
def civilOfDays (z0 : Int) : Int × Nat × Nat :=
  let z := z0 + 719468
  let era := Int.fdiv z 146097
  let doe := (z - era * 146097).toNat
  let yoe := (doe - doe / 1460 + doe / 36524 - doe / 146096) / 365
  let doy := doe - (365 * yoe + yoe / 4 - yoe / 100)
  let mp := (5 * doy + 2) / 153
  let day := doy - (153 * mp + 2) / 5 + 1
  let month := if mp < 10 then mp + 3 else mp - 9
  (era * 400 + yoe + (if month ≤ 2 then 1 else 0), month, day)

/-- Dutch abbreviated month name, as rendered by
`toLocaleDateString("nl-NL", ...)` with a short month. -/
def monthAbbrevNl (m : Nat) : String :=
  match m with
  | 1 => "jan."
  | 2 => "feb."
  | 3 => "mrt."
  | 4 => "apr."
  | 5 => "mei"
  | 6 => "jun."
  | 7 => "jul."
  | 8 => "aug."
  | 9 => "sep."
  | 10 => "okt."
  | 11 => "nov."
  | 12 => "dec."
  | _ => ""

/-- The shape of the string produced by the `formatDateTime` helper of
src/payments-list.tsx: either a time of day (`toLocaleTimeString`, hour and
minute) or a day-of-month with an abbreviated month (`toLocaleDateString`). -/
inductive DateTimeDisplay where
  | timeOfDay (hour minute : Nat)
  | dayMonth (day : Nat) (month : String)
deriving DecidableEq

/-- Whether a display is the time-of-day form. -/
def DateTimeDisplay.isTimeOfDay : DateTimeDisplay → Bool
  | .timeOfDay _ _ => true
  | .dayMonth _ _ => false

/-- The `formatDateTime` helper: truncate both the payment timestamp `t` and
the current time `now` to local midnight; when they agree, show the local time
of day, otherwise the day and abbreviated month. -/
def formatDateTime (off now t : Int) : DateTimeDisplay :=
  if truncMidnight off t = truncMidnight off now then
    .timeOfDay (localHour off t) (localMinute off t)
  else
    .dayMonth (civilOfDays (Int.fdiv (t + off) msPerDay)).2.2
      (monthAbbrevNl (civilOfDays (Int.fdiv (t + off) msPerDay)).2.1)

/-- The values of the menu bar's memoised aggregate before locale formatting:
numeric total, the currency it is formatted in, and the transaction count. -/
structure Aggregate where
  total : ℚ
  currency : String
  count : Nat
deriving DecidableEq

/-- The today-revenue aggregation of `TransactionsMenuBar`
(src/transactionsMenuBar.tsx): keep the payments whose status is `"paid"` and
whose creation time is at or after the local midnight of `now`, sum their
parsed amounts, take the currency of the first such payment (`"EUR"` when
there is none or its currency is falsy), and count them. -/
def aggregateToday (off now : Int) (payments : List Payment) : Aggregate :=
  let todayTimestamp := truncMidnight off now
  let todayPaidPayments :=
    payments.filter fun p => decide (p.status = "paid") && decide (todayTimestamp ≤ p.createdAt)
  { total := (todayPaidPayments.map fun p => parseAmount p.amount.value).sum
    currency := jsOr (todayPaidPayments.head?.map fun p => p.amount.currency) "EUR"
    count := todayPaidPayments.length }

/-- The `filteredPayments` memo of `PaymentsList`: the selector `"all"`
returns the collection itself; any other selector keeps the payments whose
status equals the selector. -/
def filteredPayments (statusFilter : String) (allPayments : List Payment) : List Payment :=
  if statusFilter = "all" then allPayments
  else allPayments.filter fun payment => decide (payment.status = statusFilter)

/-- One row's actions in the `ActionPanel` rendered by `PaymentsList`. -/
inductive PaymentAction where
  | openDashboard (url : String)
  | refund
  | copyId (id : String)
  | copyAmount (text : String)
deriving DecidableEq

/-- The action panel built for a payment row: open-dashboard first, then the
refund action guarded by `payment.status === "paid"`, then the two copy
actions. -/
def paymentActions (payment : Payment) : List PaymentAction :=
  [PaymentAction.openDashboard payment.dashboardHref]
    ++ (if payment.status = "paid" then [PaymentAction.refund] else [])
    ++ [PaymentAction.copyId payment.id,
        PaymentAction.copyAmount
          (formatCurrency (parseAmount payment.amount.value) payment.amount.currency)]

/-- The JSON body of the refund request: an amount with currency and value. -/
structure RefundBody where
  currency : String
  value : String
deriving DecidableEq

/-- An outgoing HTTP request exactly as `handleRefund` builds it. -/
structure RefundRequest where
  url : String
  httpMethod : String
  authorization : String
  contentType : String
  body : RefundBody
deriving DecidableEq

/-- The structured error envelope the Mollie API returns on failure: optional
`detail` and `title` fields (an absent field is `undefined`). -/
structure ErrorBody where
  detail : Option String
  title : Option String
deriving DecidableEq

/-- The result of `response.json()` on a response: a parsed envelope, or the
rejection of the JSON parser carrying its message. -/
inductive BodyJson where
  | parsed (e : ErrorBody)
  | parseError (message : String)
deriving DecidableEq

/-- An HTTP response to the refund request: status code and the outcome of
reading the body as JSON. -/
structure HttpResponse where
  status : Nat
  json : BodyJson
deriving DecidableEq

/-- `Response.ok` of the fetch API: the status is in the 2xx range. -/
def HttpResponse.ok (r : HttpResponse) : Bool :=
  decide (200 ≤ r.status) && decide (r.status < 300)

/-- The outcome of the `fetch` call issued by `handleRefund`: a response, or a
request-level rejection carrying its message. -/
inductive FetchOutcome where
  | response (r : HttpResponse)
  | networkError (message : String)
deriving DecidableEq

/-- The final state of the toast shown by `handleRefund`. -/
inductive RefundToast where
  | noToast
  | success (message : String)
  | failure (message : String)
deriving DecidableEq

/-- Everything `handleRefund` does besides rendering: the refund POSTs it
issued, how many times it called `revalidate`, and the final toast. -/
structure RefundEffects where
  requests : List RefundRequest
  refetchCount : Nat
  toast : RefundToast
deriving DecidableEq

/-- The refund request `handleRefund` sends for a payment: POST to the
payment's refunds endpoint, bearer authorization, JSON body carrying the
payment's own currency and full value, unchanged. -/
def refundRequestFor (accessToken : String) (payment : Payment) : RefundRequest :=
  { url := "https://api.mollie.com/v2/payments/" ++ payment.id ++ "/refunds"
    httpMethod := "POST"
    authorization := "Bearer " ++ accessToken
    contentType := "application/json"
    body := { currency := payment.amount.currency, value := payment.amount.value } }

/-- The `handleRefund` function of `PaymentsList`.  `confirmed` is the user's
answer to the confirmation alert (dismissal resolves it to `false`);
`outcome` resolves the single `fetch` call and is consulted only when one is
issued.  Declining issues nothing.  On a 2xx response the toast reports
success and `revalidate` runs once.  Otherwise the code throws — with
`errorData.detail || errorData.title || "HTTP error! Status: ..."` from a
parsed body, with the parse rejection itself when the body is not JSON, or
with the fetch rejection on a request-level error — and the catch block turns
the thrown message into a failure toast with no `revalidate` call. -/
def handleRefund (accessToken : String) (payment : Payment) (confirmed : Bool)
    (outcome : FetchOutcome) : RefundEffects :=
  if !confirmed then { requests := [], refetchCount := 0, toast := RefundToast.noToast }
  else
    let req := refundRequestFor accessToken payment
    match outcome with
    | FetchOutcome.networkError m =>
        { requests := [req], refetchCount := 0, toast := RefundToast.failure m }
    | FetchOutcome.response r =>
        if r.ok then
          { requests := [req], refetchCount := 1,
            toast := RefundToast.success
              ("Refunded " ++
                formatCurrency (parseAmount payment.amount.value) payment.amount.currency) }
        else
          match r.json with
          | BodyJson.parseError m =>
              { requests := [req], refetchCount := 0, toast := RefundToast.failure m }
          | BodyJson.parsed e =>
              { requests := [req], refetchCount := 0,
                toast := RefundToast.failure
                  (jsOr e.detail (jsOr e.title ("HTTP error! Status: " ++ toString r.status))) }

/-- The refund handler next to the fetched collection it can see: in the
source, `handleRefund` closes over `revalidate` only and never writes the
fetched `data`, so the collection passes through unchanged and the re-fetch is
a counted signal in the effects. -/
def runRefund (payments : List Payment) (accessToken : String) (payment : Payment)
    (confirmed : Bool) (outcome : FetchOutcome) : List Payment × RefundEffects :=
  (payments, handleRefund accessToken payment confirmed outcome)

/-- Sample payment used by the concrete witnesses: paid today (with `off = 0`
and `now = sampleNow`). -/
def samplePaid : Payment :=
  { id := "tr_paid1"
    amount := { value := "10.00", currency := "EUR" }
    description := "Coffee beans"
    status := "paid"
    method := some "ideal"
    createdAt := 172801000
    dashboardHref := "https://my.mollie.com/dashboard/p1" }

/-- Sample payment that is paid and dated after `sampleNow` (in the future). -/
def samplePaidFuture : Payment :=
  { id := "tr_paid2"
    amount := { value := "5.50", currency := "EUR" }
    description := "Filter papers"
    status := "paid"
    method := some "creditcard"
    createdAt := 262800000
    dashboardHref := "https://my.mollie.com/dashboard/p2" }

/-- Sample payment paid on the previous local day. -/
def samplePaidYesterday : Payment :=
  { id := "tr_paid0"
    amount := { value := "3.00", currency := "EUR" }
    description := "Stickers"
    status := "paid"
    method := none
    createdAt := 86400000
    dashboardHref := "https://my.mollie.com/dashboard/p0" }

/-- Sample payment created today but still open. -/
def sampleOpen : Payment :=
  { id := "tr_open1"
    amount := { value := "7.25", currency := "EUR" }
    description := "Mug"
    status := "open"
    method := some "paypal"
    createdAt := 172900000
    dashboardHref := "https://my.mollie.com/dashboard/p3" }

/-- Sample current time: 01:00 local on the third epoch day (offset 0), so the
local midnight of "today" is 172800000. -/
def sampleNow : Int := 176400000

/-- Sample collection for the aggregate and filter witnesses. -/
def samplePayments : List Payment :=
  [samplePaid, samplePaidFuture, samplePaidYesterday, sampleOpen]

/-- Sample successful refund response. -/
def sampleOkResponse : HttpResponse :=
  { status := 200, json := BodyJson.parsed { detail := none, title := none } }

/-- Sample failing refund response with a structured error detail. -/
def sampleErrResponse : HttpResponse :=
  { status := 422, json := BodyJson.parsed { detail := some "insufficient balance", title := none } }

/-- Sample failing refund response whose body is not JSON. -/
def sampleParseErrResponse : HttpResponse :=
  { status := 502, json := BodyJson.parseError "Unexpected end of JSON input" }

end Mollie

namespace Mollie

/-- Helper: a string option that is JavaScript-truthy is kept by `jsOr`. -/
theorem jsOr_of_truthy (s b : String) (hne : s ≠ "") : jsOr (some s) b = s := by
  simp [jsOr, hne]

/-- Helper: a JavaScript-falsy string option falls through `jsOr`. -/
theorem jsOr_of_falsy (a : Option String) (b : String) (h : jsTruthy a = false) :
    jsOr a b = b := by
  cases a with
  | none => rfl
  | some s =>
      have hs : s = "" := by simpa [jsTruthy] using h
      simp [jsOr, hs]

/-- Helper: two timestamps truncate to the same local midnight exactly when
they fall on the same local day number. -/
theorem truncMidnight_eq_iff (off a b : Int) :
    truncMidnight off a = truncMidnight off b ↔
      (a + off) / msPerDay = (b + off) / msPerDay := by
  simp only [truncMidnight, msPerDay]
  omega

end Mollie

namespace Mollie

/-- Claim C7: filtering with the selector "all" returns the collection itself,
with the same membership and the same order. -/
theorem filter_all_identity (C : List Payment) : filteredPayments "all" C = C := by
  simp [filteredPayments]

/-- Claim C8: for a status selector other than "all", every element of the
filtered collection has that status, the result is a sublist of the input
(preserving relative order), and filtering is idempotent. -/
theorem filter_status_spec (C : List Payment) (S : String) (hS : S ≠ "all") :
    (∀ p ∈ filteredPayments S C, p.status = S)
    ∧ List.Sublist (filteredPayments S C) C
    ∧ filteredPayments S (filteredPayments S C) = filteredPayments S C := by
  have hdef : ∀ D : List Payment,
      filteredPayments S D = D.filter fun payment => decide (payment.status = S) := by
    intro D
    simp [filteredPayments, hS]
  refine ⟨?_, ?_, ?_⟩
  · intro p hp
    rw [hdef] at hp
    exact of_decide_eq_true (List.mem_filter.mp hp).2
  · rw [hdef]
    exact List.filter_sublist C
  · rw [hdef, hdef]
    refine List.filter_eq_self.mpr ?_
    intro p hp
    exact (List.mem_filter.mp hp).2

/-- Witness for C8 at a concrete collection and the selector "paid". -/
theorem filter_status_spec_witness :
    (∀ p ∈ filteredPayments "paid" samplePayments, p.status = "paid")
    ∧ List.Sublist (filteredPayments "paid" samplePayments) samplePayments
    ∧ filteredPayments "paid" (filteredPayments "paid" samplePayments)
        = filteredPayments "paid" samplePayments :=
  filter_status_spec samplePayments "paid" (by decide)

/-- Claim C2: the refund action appears in a payment row's action panel
exactly when the payment's status is "paid". -/
theorem refund_action_iff_paid (payment : Payment) :
    PaymentAction.refund ∈ paymentActions payment ↔ payment.status = "paid" := by
  by_cases h : payment.status = "paid" <;> simp [paymentActions, h]

/-- Claim C3: a confirmed refund issues exactly one request, whose JSON body
carries the payment's full amount value and original currency unchanged, and
whose method and URL are the payment's refunds endpoint. -/
theorem refund_request_full_amount (accessToken : String) (payment : Payment)
    (outcome : FetchOutcome) :
    (handleRefund accessToken payment true outcome).requests
        = [refundRequestFor accessToken payment]
    ∧ (refundRequestFor accessToken payment).body
        = { currency := payment.amount.currency, value := payment.amount.value }
    ∧ (refundRequestFor accessToken payment).httpMethod = "POST"
    ∧ (refundRequestFor accessToken payment).url
        = "https://api.mollie.com/v2/payments/" ++ payment.id ++ "/refunds" := by
  refine ⟨?_, rfl, rfl, rfl⟩
  cases outcome with
  | networkError m => rfl
  | response r =>
      by_cases h : r.ok = true <;> cases hj : r.json <;> simp [handleRefund, h, hj]

/-- Claim C4: when the confirmation is declined or dismissed, the workflow
issues zero requests, triggers zero re-fetches, shows no toast, and the
payment collection passes through unchanged; hence a refund POST is never
sent without explicit affirmation. -/
theorem refund_declined_no_effect (payments : List Payment) (accessToken : String)
    (payment : Payment) (outcome : FetchOutcome) :
    runRefund payments accessToken payment false outcome
      = (payments, { requests := [], refetchCount := 0, toast := RefundToast.noToast }) := rfl

end Mollie

namespace Mollie

/-- Claim C5: a confirmed refund whose response is 2xx issues exactly one
request, triggers exactly one re-fetch, surfaces a success toast carrying the
refunded amount, and leaves the payment collection unchanged — the re-fetch
signal is the only local effect besides the notification. -/
theorem refund_success_refetch_once (payments : List Payment) (accessToken : String)
    (payment : Payment) (r : HttpResponse) (h : r.ok = true) :
    runRefund payments accessToken payment true (FetchOutcome.response r)
      = (payments,
         { requests := [refundRequestFor accessToken payment]
           refetchCount := 1
           toast := RefundToast.success
             ("Refunded " ++
               formatCurrency (parseAmount payment.amount.value) payment.amount.currency) }) := by
  simp [runRefund, handleRefund, h]

/-- Witness for C5: a concrete 200 response on the sample collection. -/
theorem refund_success_refetch_once_witness :
    runRefund samplePayments "token123" samplePaid true (FetchOutcome.response sampleOkResponse)
      = (samplePayments,
         { requests := [refundRequestFor "token123" samplePaid]
           refetchCount := 1
           toast := RefundToast.success
             ("Refunded " ++
               formatCurrency (parseAmount samplePaid.amount.value)
                 samplePaid.amount.currency) }) :=
  refund_success_refetch_once samplePayments "token123" samplePaid sampleOkResponse rfl

/-- Claim C6: a confirmed refund whose response is non-2xx (or whose request
errs) triggers zero re-fetches, leaves the collection unchanged, and surfaces
a failure toast whose message prefers the structured error's detail, then its
title, and otherwise is the generic HTTP-status message; a request-level
error surfaces the error's own message. -/
theorem refund_failure_spec (payments : List Payment) (accessToken : String)
    (payment : Payment) (r : HttpResponse) (e : ErrorBody)
    (hok : r.ok = false) (hjson : r.json = BodyJson.parsed e) :
    runRefund payments accessToken payment true (FetchOutcome.response r)
      = (payments,
         { requests := [refundRequestFor accessToken payment]
           refetchCount := 0
           toast := RefundToast.failure
             (jsOr e.detail (jsOr e.title ("HTTP error! Status: " ++ toString r.status))) })
    ∧ (∀ d, e.detail = some d → d ≠ "" →
        jsOr e.detail (jsOr e.title ("HTTP error! Status: " ++ toString r.status)) = d)
    ∧ (∀ s, jsTruthy e.detail = false → e.title = some s → s ≠ "" →
        jsOr e.detail (jsOr e.title ("HTTP error! Status: " ++ toString r.status)) = s)
    ∧ (jsTruthy e.detail = false → jsTruthy e.title = false →
        jsOr e.detail (jsOr e.title ("HTTP error! Status: " ++ toString r.status))
          = "HTTP error! Status: " ++ toString r.status)
    ∧ (∀ m, runRefund payments accessToken payment true (FetchOutcome.networkError m)
        = (payments,
           { requests := [refundRequestFor accessToken payment]
             refetchCount := 0
             toast := RefundToast.failure m })) := by
  refine ⟨?_, ?_, ?_, ?_, ?_⟩
  · simp [runRefund, handleRefund, hok, hjson]
  · intro d hd hdne
    rw [hd]
    exact jsOr_of_truthy d _ hdne
  · intro s hdf hs hsne
    rw [jsOr_of_falsy _ _ hdf, hs]
    exact jsOr_of_truthy s _ hsne
  · intro hdf htf
    rw [jsOr_of_falsy _ _ hdf, jsOr_of_falsy _ _ htf]
  · intro m
    rfl

/-- Witness for C6: the simulated error body with detail "insufficient
balance" surfaces exactly that message. -/
theorem refund_failure_spec_witness :
    (runRefund samplePayments "token123" samplePaid true
        (FetchOutcome.response sampleErrResponse)).2.toast
      = RefundToast.failure "insufficient balance" := by
  have h := refund_failure_spec samplePayments "token123" samplePaid sampleErrResponse
    { detail := some "insufficient balance", title := none } rfl rfl
  rw [h.1]
  decide

/-- Claim C9: `formatDateTime` renders a time-of-day form exactly when the
timestamp falls on the caller's current local calendar day, and a timestamp at
exactly the local midnight of today renders as the time of day 00:00. -/
theorem formatDateTime_today_iff (off now t : Int) :
    ((formatDateTime off now t).isTimeOfDay = true ↔
      (t + off) / msPerDay = (now + off) / msPerDay)
    ∧ formatDateTime off now (truncMidnight off now) = DateTimeDisplay.timeOfDay 0 0 := by
  constructor
  · rw [← truncMidnight_eq_iff]
    by_cases h : truncMidnight off t = truncMidnight off now
    · simp [formatDateTime, h, DateTimeDisplay.isTimeOfDay]
    · simp [formatDateTime, h, DateTimeDisplay.isTimeOfDay]
  · have h0 : truncMidnight off (truncMidnight off now) = truncMidnight off now := by
      simp only [truncMidnight, msPerDay]
      omega
    have h1 : localHour off (truncMidnight off now) = 0 := by
      simp only [localHour, truncMidnight, msPerDay]
      omega
    have h2 : localMinute off (truncMidnight off now) = 0 := by
      simp only [localMinute, truncMidnight, msPerDay]
      omega
    simp [formatDateTime, h0, h1, h2]

end Mollie

namespace Mollie

/-- Claim C1: the aggregate counts exactly the payments with status "paid"
created at or after the local midnight of now (no upper bound), its total is
the sum of their parsed amount values, its currency is the first qualifying
payment's currency, and with no qualifying payment it is zero EUR with count
zero.  The hypothesis is the spec's Amount invariant: currency codes are
non-empty (ISO-4217). -/
theorem aggregateToday_spec (off now : Int) (ps : List Payment)
    (hcur : ∀ p ∈ ps, p.amount.currency ≠ "") :
    (aggregateToday off now ps).count
        = (ps.filter fun p =>
            decide (p.status = "paid" ∧ truncMidnight off now ≤ p.createdAt)).length
    ∧ (aggregateToday off now ps).total
        = ((ps.filter fun p =>
            decide (p.status = "paid" ∧ truncMidnight off now ≤ p.createdAt)).map
              fun p => parseAmount p.amount.value).sum
    ∧ (∀ q qs,
        (ps.filter fun p =>
          decide (p.status = "paid" ∧ truncMidnight off now ≤ p.createdAt)) = q :: qs →
        (aggregateToday off now ps).currency = q.amount.currency)
    ∧ ((ps.filter fun p =>
          decide (p.status = "paid" ∧ truncMidnight off now ≤ p.createdAt)) = [] →
        aggregateToday off now ps = { total := 0, currency := "EUR", count := 0 }) := by
  have hfe : (ps.filter fun p =>
        decide (p.status = "paid") && decide (truncMidnight off now ≤ p.createdAt))
      = ps.filter fun p => decide (p.status = "paid" ∧ truncMidnight off now ≤ p.createdAt) :=
    List.filter_congr fun p _ => (Bool.decide_and _ _).symm
  have hagg : aggregateToday off now ps
      = { total := ((ps.filter fun p =>
              decide (p.status = "paid" ∧ truncMidnight off now ≤ p.createdAt)).map
                fun p => parseAmount p.amount.value).sum
          currency := jsOr (((ps.filter fun p =>
              decide (p.status = "paid" ∧ truncMidnight off now ≤ p.createdAt)).head?).map
                fun p => p.amount.currency) "EUR"
          count := (ps.filter fun p =>
              decide (p.status = "paid" ∧ truncMidnight off now ≤ p.createdAt)).length } := by
    simp only [aggregateToday]
    rw [hfe]
  refine ⟨?_, ?_, ?_, ?_⟩
  · rw [hagg]
  · rw [hagg]
  · intro q qs hq
    have hmemf : q ∈ ps.filter fun p =>
        decide (p.status = "paid" ∧ truncMidnight off now ≤ p.createdAt) := by
      rw [hq]
      exact List.mem_cons_self q qs
    have hmem : q ∈ ps := List.mem_of_mem_filter hmemf
    rw [hagg, hq]
    simp [jsOr, hcur q hmem]
  · intro hnil
    rw [hagg, hnil]
    simp [jsOr]

/-- Witness for C1 at the sample collection: two paid payments qualify (one of
them future-dated), the open and yesterday ones do not, the count is 2 and the
currency is EUR. -/
theorem aggregateToday_spec_witness :
    (aggregateToday 0 sampleNow samplePayments).count
        = (samplePayments.filter fun p =>
            decide (p.status = "paid" ∧ truncMidnight 0 sampleNow ≤ p.createdAt)).length
    ∧ (aggregateToday 0 sampleNow samplePayments).total
        = ((samplePayments.filter fun p =>
            decide (p.status = "paid" ∧ truncMidnight 0 sampleNow ≤ p.createdAt)).map
              fun p => parseAmount p.amount.value).sum
    ∧ (aggregateToday 0 sampleNow samplePayments).currency = "EUR"
    ∧ (aggregateToday 0 sampleNow samplePayments).count = 2 := by
  have h := aggregateToday_spec 0 sampleNow samplePayments (by decide)
  exact ⟨h.1, h.2.1, by decide, by decide⟩

/-- Claim C10 counterexample: a non-2xx response whose parsed body has the
truthy detail "HTTP error! Status: 500" surfaces a message equal to the
generic HTTP-status string even though a truthy detail is present, so the
generic message is not surfaced only when detail and title are falsy. -/
theorem generic_message_with_truthy_detail :
    (handleRefund "token123" samplePaid true
        (FetchOutcome.response
          { status := 500
            json := BodyJson.parsed
              { detail := some "HTTP error! Status: 500", title := none } })).toast
      = RefundToast.failure ("HTTP error! Status: " ++ toString (500 : Nat))
    ∧ jsTruthy (some "HTTP error! Status: 500") = true := by
  constructor
  · decide
  · decide

/-- Claim C10 (amended): on a non-2xx response the surfaced failure message is
the parse rejection's message when the body is not JSON, the detail when
truthy, else the title when truthy, and the generic HTTP-status string only
from the parsed-body branch with neither field truthy (though a truthy field
may itself coincide with that string). -/
theorem refund_error_message_spec (accessToken : String) (payment : Payment)
    (r : HttpResponse) (hok : r.ok = false) :
    (∀ m, r.json = BodyJson.parseError m →
      (handleRefund accessToken payment true (FetchOutcome.response r)).toast
        = RefundToast.failure m)
    ∧ (∀ e d, r.json = BodyJson.parsed e → e.detail = some d → d ≠ "" →
      (handleRefund accessToken payment true (FetchOutcome.response r)).toast
        = RefundToast.failure d)
    ∧ (∀ e s, r.json = BodyJson.parsed e → jsTruthy e.detail = false →
        e.title = some s → s ≠ "" →
      (handleRefund accessToken payment true (FetchOutcome.response r)).toast
        = RefundToast.failure s)
    ∧ (∀ e, r.json = BodyJson.parsed e → jsTruthy e.detail = false →
        jsTruthy e.title = false →
      (handleRefund accessToken payment true (FetchOutcome.response r)).toast
        = RefundToast.failure ("HTTP error! Status: " ++ toString r.status)) := by
  refine ⟨?_, ?_, ?_, ?_⟩
  · intro m hm
    simp [handleRefund, hok, hm]
  · intro e d he hd hdne
    have hmsg : jsOr e.detail (jsOr e.title ("HTTP error! Status: " ++ toString r.status)) = d := by
      rw [hd]
      exact jsOr_of_truthy d _ hdne
    simp [handleRefund, hok, he, hmsg]
  · intro e s he hdf hs hsne
    have hmsg : jsOr e.detail (jsOr e.title ("HTTP error! Status: " ++ toString r.status)) = s := by
      rw [jsOr_of_falsy _ _ hdf, hs]
      exact jsOr_of_truthy s _ hsne
    simp [handleRefund, hok, he, hmsg]
  · intro e he hdf htf
    have hmsg : jsOr e.detail (jsOr e.title ("HTTP error! Status: " ++ toString r.status))
        = "HTTP error! Status: " ++ toString r.status := by
      rw [jsOr_of_falsy _ _ hdf, jsOr_of_falsy _ _ htf]
    simp [handleRefund, hok, he, hmsg]

/-- Witness for the amended C10: a concrete non-JSON 502 body surfaces the
parse rejection's message. -/
theorem refund_error_message_spec_witness :
    (handleRefund "token123" samplePaid true
        (FetchOutcome.response sampleParseErrResponse)).toast
      = RefundToast.failure "Unexpected end of JSON input" :=
  (refund_error_message_spec "token123" samplePaid sampleParseErrResponse rfl).1
    "Unexpected end of JSON input" rfl

end Mollie
